import Mathlib

/-!
Verification of the `rio` non-blocking TCP socket layer.

The address codec (`src/net.rs`: `socket_addr`, `to_socket_addr`) is embedded
at the byte level: the native storage (`SocketAddrCRepr` / `sockaddr_storage`)
is a list of bytes laid out per the Linux ABI on a little-endian host
(`sockaddr_in`: family u16 at 0, port u16 at 2, s_addr u32 at 4, sin_zero at
8..16, size 16; `sockaddr_in6`: family u16 at 0, port u16 at 2, flowinfo u32
at 4, s6_addr 16 bytes at 8, scope_id u32 at 24, size 28).

The socket lifecycle functions (`src/tcp.rs`: `TcpListener::bind`,
`TcpListener::accept`, `TcpStream::connect`, and `src/net.rs`:
`create_new_socket`) are embedded as functions over an OS oracle (`OsEnv`)
giving the outcome of each kernel call; each function returns its result
together with the ordered trace of kernel calls it issues, including the
`close` issued when a descriptor-owning value is dropped on an error path.
-/

namespace Rio

/-! ### Linux libc constants -/

def AF_INET : Nat := 2

def AF_INET6 : Nat := 10

def SOCK_STREAM : Nat := 1

def SOCK_NONBLOCK : Nat := 2048

def SOCK_CLOEXEC : Nat := 524288

def SOL_SOCKET : Nat := 1

def SO_REUSEADDR : Nat := 2

def EINPROGRESS : Nat := 115

def EAGAIN : Nat := 11

def EINVAL : Nat := 22

/-! ### Byte-level helpers (little-endian host) -/

/-- Read the byte at index `i` of a storage buffer (0 past the end). -/
def byteAt (s : List Nat) (i : Nat) : Nat := s.getD i 0

/-- Read a `u16` stored in native (little-endian) order at offset `i`. -/
def readU16 (s : List Nat) (i : Nat) : Nat := byteAt s i + 256 * byteAt s (i + 1)

/-- Read a `u32` stored in native (little-endian) order at offset `i`. -/
def readU32 (s : List Nat) (i : Nat) : Nat :=
  byteAt s i + 256 * byteAt s (i + 1) + 65536 * byteAt s (i + 2) +
    16777216 * byteAt s (i + 3)

/-- The bytes of a `u16` in native (little-endian) order, as stored in memory. -/
def u16_to_ne_bytes (x : Nat) : List Nat := [x % 256, x / 256 % 256]

/-- The bytes of a `u32` in native (little-endian) order: `u32::to_ne_bytes`. -/
def u32_to_ne_bytes (x : Nat) : List Nat :=
  [x % 256, x / 256 % 256, x / 65536 % 256, x / 16777216 % 256]

/-- `u32::from_ne_bytes` on a little-endian host. -/
def u32_from_ne_bytes (l : List Nat) : Nat :=
  byteAt l 0 + 256 * byteAt l 1 + 65536 * byteAt l 2 + 16777216 * byteAt l 3

/-- `u16::to_be` on a little-endian host: swap the two bytes. -/
def u16_to_be (x : Nat) : Nat := x % 256 * 256 + x / 256 % 256

/-- `u16::from_be` on a little-endian host: swap the two bytes. -/
def u16_from_be (x : Nat) : Nat := x % 256 * 256 + x / 256 % 256

/-! ### Portable addresses (`std::net::SocketAddr`) -/

/-- `SocketAddrV4`: 4 address octets and a port. -/
structure SockAddrV4 where
  octets : List Nat
  port : Nat
deriving DecidableEq

/-- `SocketAddrV6`: 16 address octets, port, flow info and scope id. -/
structure SockAddrV6 where
  octets : List Nat
  port : Nat
  flowinfo : Nat
  scope_id : Nat
deriving DecidableEq

/-- `std::net::SocketAddr`. -/
inductive SocketAddr where
  | V4 : SockAddrV4 → SocketAddr
  | V6 : SockAddrV6 → SocketAddr
deriving DecidableEq

/-- A well-formed IPv4 portable address: 4 octets, 16-bit port. -/
def SockAddrV4.Valid (a : SockAddrV4) : Prop :=
  a.octets.length = 4 ∧ (∀ b ∈ a.octets, b < 256) ∧ a.port < 65536

/-- A well-formed IPv6 portable address: 16 octets, 16-bit port, 32-bit
flow info and scope id. -/
def SockAddrV6.Valid (a : SockAddrV6) : Prop :=
  a.octets.length = 16 ∧ (∀ b ∈ a.octets, b < 256) ∧ a.port < 65536 ∧
    a.flowinfo < 4294967296 ∧ a.scope_id < 4294967296

instance (a : SockAddrV4) : Decidable a.Valid := by
  unfold SockAddrV4.Valid; infer_instance

instance (a : SockAddrV6) : Decidable a.Valid := by
  unfold SockAddrV6.Valid; infer_instance

/-- Well-formedness of a portable address, per family. -/
def SocketAddr.Valid : SocketAddr → Prop
  | .V4 a => a.Valid
  | .V6 a => a.Valid

instance (a : SocketAddr) : Decidable a.Valid := by
  cases a <;> (unfold SocketAddr.Valid; infer_instance)

/-- The port field of a portable address. -/
def SocketAddr.port : SocketAddr → Nat
  | .V4 a => a.port
  | .V6 a => a.port

/-- The address family tag matching a portable address's family
(the `domain` computed in `new_for_addr`, src/tcp.rs:17). -/
def SocketAddr.family : SocketAddr → Nat
  | .V4 _ => AF_INET
  | .V6 _ => AF_INET6

/-! ### Error model (`std::io`) -/

/-- The `std::io::ErrorKind` values this layer can produce or that the
claims distinguish. -/
inductive ErrorKind where
  | wouldBlock
  | invalidInput
  | other
deriving DecidableEq

/-- The kind `std::io::Error::last_os_error` assigns to an errno
(`decode_error_kind`): `EAGAIN` maps to `WouldBlock`, `EINVAL` to
`InvalidInput`; the remaining errnos this layer meets are uncategorized. -/
def errnoKind (e : Nat) : ErrorKind :=
  if e = EAGAIN then .wouldBlock
  else if e = EINVAL then .invalidInput
  else .other

/-- `std::io::Error`: either built from a raw OS errno
(`Error::last_os_error`) or from a bare kind (`ErrorKind::into`). -/
inductive IoError where
  | fromRawOsError : Nat → IoError
  | fromKind : ErrorKind → IoError
deriving DecidableEq

/-- `io::Error::kind`. -/
def IoError.kind : IoError → ErrorKind
  | .fromRawOsError e => errnoKind e
  | .fromKind k => k

/-- `io::Error::raw_os_error`: `Some errno` only for errors built from an
OS errno. -/
def IoError.rawOsError : IoError → Option Nat
  | .fromRawOsError e => some e
  | .fromKind _ => none

/-! ### Address codec (`src/net.rs`) -/

/-- `socket_addr` (src/net.rs:32): converts a portable `SocketAddr` into the
native representation and its exact byte length per family.  The v4 arm
builds `sockaddr_in { sin_family: AF_INET, sin_port: port.to_be(),
sin_addr: u32::from_ne_bytes(octets), sin_zero: [0; 8] }` (16 bytes); the
v6 arm builds `sockaddr_in6 { sin6_family: AF_INET6, sin6_port:
port.to_be(), sin6_flowinfo, sin6_addr: octets, sin6_scope_id }`
(28 bytes).  Multi-byte fields are laid down in native (little-endian)
byte order. -/
def socket_addr : SocketAddr → List Nat × Nat
  | .V4 a =>
    (u16_to_ne_bytes AF_INET ++ u16_to_ne_bytes (u16_to_be a.port) ++
       u32_to_ne_bytes (u32_from_ne_bytes a.octets) ++
       [0, 0, 0, 0, 0, 0, 0, 0], 16)
  | .V6 a =>
    (u16_to_ne_bytes AF_INET6 ++ u16_to_ne_bytes (u16_to_be a.port) ++
       u32_to_ne_bytes a.flowinfo ++ a.octets ++ u32_to_ne_bytes a.scope_id,
     28)

/-- `to_socket_addr` (src/net.rs:68): reads `ss_family`; under `AF_INET`
reinterprets the buffer as `sockaddr_in` (ip from
`s_addr.to_ne_bytes()`, port from `u16::from_be(sin_port)`); under
`AF_INET6` as `sockaddr_in6` (the 16 `s6_addr` bytes verbatim, port
byte-swapped, flowinfo and scope id in host order); any other family is
`Err(io::ErrorKind::InvalidInput.into())`. -/
def to_socket_addr (storage : List Nat) : Except IoError SocketAddr :=
  if readU16 storage 0 = AF_INET then
    .ok (.V4 ⟨u32_to_ne_bytes (readU32 storage 4),
              u16_from_be (readU16 storage 2)⟩)
  else if readU16 storage 0 = AF_INET6 then
    .ok (.V6 ⟨(storage.drop 8).take 16,
              u16_from_be (readU16 storage 2),
              readU32 storage 4,
              readU32 storage 24⟩)
  else
    .error (.fromKind .invalidInput)

/-! ### Kernel-call model (`src/lib.rs` `syscall!`, `src/tcp.rs`) -/

/-- One kernel call, with the argument values the source passes. -/
inductive Syscall where
  | socket (domain ty protocol : Nat)
  | setsockopt (fd level optname optval optlen : Nat)
  | bind (fd : Nat) (addr : List Nat) (len : Nat)
  | listen (fd backlog : Nat)
  | connect (fd : Nat) (addr : List Nat) (len : Nat)
  | accept4 (fd flags : Nat)
  | close (fd : Nat)
deriving DecidableEq

/-- Oracle for the outcome of each kernel call a single endpoint operation
can issue: `Except.error e` is a `-1` return with errno `e` (which the
`syscall!` macro of src/lib.rs turns into `io::Error::last_os_error()`),
`Except.ok` the successful return value.  `peerBytes` is the peer-address
storage the kernel fills in during `accept4`. -/
structure OsEnv where
  socketRes : Except Nat Nat
  setsockoptRes : Except Nat Unit
  bindRes : Except Nat Unit
  listenRes : Except Nat Unit
  connectRes : Except Nat Unit
  accept4Res : Except Nat Nat
  peerBytes : List Nat

/-- `create_new_socket` (src/net.rs:13): ors the non-blocking and
close-on-exec flags into the requested socket type and issues a single
`socket(domain, type, 0)` call, returning its descriptor or its error. -/
def create_new_socket (env : OsEnv) (domain socket_type : Nat) :
    Except IoError Nat × List Syscall :=
  let ty := socket_type ||| SOCK_NONBLOCK ||| SOCK_CLOEXEC
  match env.socketRes with
  | .ok fd => (.ok fd, [.socket domain ty 0])
  | .error e => (.error (.fromRawOsError e), [.socket domain ty 0])

/-- `new_for_addr` (src/tcp.rs:17): derives the domain from the address
family and creates a stream socket. -/
def new_for_addr (env : OsEnv) (addr : SocketAddr) :
    Except IoError Nat × List Syscall :=
  create_new_socket env addr.family SOCK_STREAM

/-- `TcpListener::bind` (src/tcp.rs:30): creates a socket, sets
`SO_REUSEADDR` (value 1, length `sizeof(c_int)` = 4), encodes the address,
issues `bind` then `listen` with backlog 1024.  A failing step returns its
OS error; on those paths the listener wrapping the new descriptor is
dropped, which closes the descriptor (the trailing `close` event). -/
def TcpListener.bind (env : OsEnv) (addr : SocketAddr) :
    Except IoError Nat × List Syscall :=
  match new_for_addr env addr with
  | (.error e, t) => (.error e, t)
  | (.ok fd, t) =>
    let t := t ++ [.setsockopt fd SOL_SOCKET SO_REUSEADDR 1 4]
    match env.setsockoptRes with
    | .error e => (.error (.fromRawOsError e), t ++ [.close fd])
    | .ok _ =>
      let raw := socket_addr addr
      let t := t ++ [.bind fd raw.1 raw.2]
      match env.bindRes with
      | .error e => (.error (.fromRawOsError e), t ++ [.close fd])
      | .ok _ =>
        let t := t ++ [.listen fd 1024]
        match env.listenRes with
        | .error e => (.error (.fromRawOsError e), t ++ [.close fd])
        | .ok _ => (.ok fd, t)

/-- `TcpListener::accept` (src/tcp.rs:56): issues
`accept4(lfd, ..., SOCK_CLOEXEC | SOCK_NONBLOCK)`; a `-1` return surfaces
`io::Error::last_os_error()`; on success the kernel-filled peer storage is
decoded with `to_socket_addr`, and a decode failure drops (closes) the
freshly accepted stream and surfaces the decode error. -/
def TcpListener.accept (env : OsEnv) (lfd : Nat) :
    Except IoError (Nat × SocketAddr) × List Syscall :=
  let flags := SOCK_CLOEXEC ||| SOCK_NONBLOCK
  match env.accept4Res with
  | .error e => (.error (.fromRawOsError e), [.accept4 lfd flags])
  | .ok newfd =>
    match to_socket_addr env.peerBytes with
    | .ok a => (.ok (newfd, a), [.accept4 lfd flags])
    | .error err => (.error err, [.accept4 lfd flags, .close newfd])

/-- `TcpStream::connect` (src/tcp.rs:126): creates a socket for the
address's family, encodes the address and issues a non-blocking `connect`.
An error whose `raw_os_error()` is not `Some(EINPROGRESS)` is returned
(dropping, hence closing, the stream that owns the new descriptor); an
`EINPROGRESS` error or a plain success yields the stream. -/
def TcpStream.connect (env : OsEnv) (addr : SocketAddr) :
    Except IoError Nat × List Syscall :=
  match new_for_addr env addr with
  | (.error e, t) => (.error e, t)
  | (.ok fd, t) =>
    let raw := socket_addr addr
    let t := t ++ [.connect fd raw.1 raw.2]
    match env.connectRes with
    | .error e =>
      if (IoError.fromRawOsError e).rawOsError ≠ some EINPROGRESS then
        (.error (.fromRawOsError e), t ++ [.close fd])
      else
        (.ok fd, t)
    | .ok _ => (.ok fd, t)

/-! ### Shared lemmas -/

/-- Byte agreement at two offsets transfers a native u16 read. -/
theorem readU16_congr (s t : List Nat) (i : Nat)
    (ha : byteAt s i = byteAt t i) (hb : byteAt s (i + 1) = byteAt t (i + 1)) :
    readU16 s i = readU16 t i := by
  simp [readU16, ha, hb]

/-- Byte agreement at four offsets transfers a native u32 read. -/
theorem readU32_congr (s t : List Nat) (i : Nat)
    (ha : byteAt s i = byteAt t i) (hb : byteAt s (i + 1) = byteAt t (i + 1))
    (hc : byteAt s (i + 2) = byteAt t (i + 2))
    (hd : byteAt s (i + 3) = byteAt t (i + 3)) :
    readU32 s i = readU32 t i := by
  simp [readU32, ha, hb, hc, hd]

/-- Agreement on the first 24 bytes of buffers at least 24 bytes long makes
the 16-byte field at offset 8 read identically. -/
theorem take_drop_congr (s t : List Nat) (hs : 24 ≤ s.length)
    (ht : 24 ≤ t.length) (h : ∀ i, i < 24 → byteAt s i = byteAt t i) :
    (s.drop 8).take 16 = (t.drop 8).take 16 := by
  apply List.ext_getElem
  · simp
    omega
  · intro i h1 h2
    simp only [List.getElem_take, List.getElem_drop]
    have hb := h (8 + i) (by simp at h1; omega)
    rw [byteAt, byteAt, List.getD_eq_getElem s 0 (by simp at h1; omega),
      List.getD_eq_getElem t 0 (by simp at h1; omega)] at hb
    exact hb

end Rio

namespace Rio

/-- C1: encoding a valid IPv4 portable address with `socket_addr` and decoding
the resulting native storage with `to_socket_addr` yields the identical
address and port. -/
theorem v4_roundtrip (a : SockAddrV4) (h : a.Valid) :
    to_socket_addr (socket_addr (.V4 a)).1 = .ok (.V4 a) := by
  obtain ⟨hlen, hoct, hport⟩ := h
  obtain ⟨oct, p⟩ := a
  match oct, hlen with
  | [o0, o1, o2, o3], _ =>
    simp only [List.mem_cons, List.not_mem_nil] at hoct
    have h0 : o0 < 256 := hoct o0 (by tauto)
    have h1 : o1 < 256 := hoct o1 (by tauto)
    have h2 : o2 < 256 := hoct o2 (by tauto)
    have h3 : o3 < 256 := hoct o3 (by tauto)
    simp only [socket_addr, to_socket_addr, u16_to_ne_bytes, u32_to_ne_bytes,
      u32_from_ne_bytes, u16_to_be, u16_from_be, byteAt, readU16, readU32,
      AF_INET, AF_INET6, List.cons_append, List.nil_append, List.getD_cons_zero,
      List.getD_cons_succ]
    rw [if_pos trivial]
    have hs0 : (o0 + 256 * o1 + 65536 * o2 + 16777216 * o3) % 256 = o0 := by omega
    have hs1 : (o0 + 256 * o1 + 65536 * o2 + 16777216 * o3) / 256 % 256 = o1 := by
      omega
    have hs2 : (o0 + 256 * o1 + 65536 * o2 + 16777216 * o3) / 65536 % 256 = o2 := by
      omega
    have hs3 : (o0 + 256 * o1 + 65536 * o2 + 16777216 * o3) / 16777216 % 256 = o3 := by
      omega
    have hp : p < 65536 := hport
    have e0 : p / 256 % 256 = p / 256 := by omega
    simp only [e0, hs0, hs1, hs2, hs3]
    have e1 : (p % 256 * 256 + p / 256) % 256 = p / 256 := by omega
    have e2 : (p % 256 * 256 + p / 256) / 256 % 256 = p % 256 := by omega
    simp only [e1, e2]
    have e3 : (p / 256 + 256 * (p % 256)) % 256 = p / 256 := by omega
    have e4 : (p / 256 + 256 * (p % 256)) / 256 % 256 = p % 256 := by omega
    simp only [e3, e4]
    have e5 : p / 256 * 256 + p % 256 = p := by omega
    rw [e5]

/-- Witness for C1 at the concrete address 127.0.0.1:8080. -/
theorem v4_roundtrip_witness :
    to_socket_addr (socket_addr (.V4 ⟨[127, 0, 0, 1], 8080⟩)).1 =
      .ok (.V4 ⟨[127, 0, 0, 1], 8080⟩) :=
  v4_roundtrip ⟨[127, 0, 0, 1], 8080⟩ (by decide)

/-- C2: encoding a valid IPv6 portable address with `socket_addr` and decoding
the resulting native storage with `to_socket_addr` is a bit-exact round trip
on address octets, port, flow info and scope id. -/
theorem v6_roundtrip (a : SockAddrV6) (h : a.Valid) :
    to_socket_addr (socket_addr (.V6 a)).1 = .ok (.V6 a) := by
  obtain ⟨hlen, hoct, hport, hflow, hscope⟩ := h
  obtain ⟨oct, p, fl, sc⟩ := a
  have hp : p < 65536 := hport
  have hf : fl < 4294967296 := hflow
  have hs : sc < 4294967296 := hscope
  have hl : oct.length = 16 := hlen
  simp only [socket_addr, to_socket_addr, u16_to_ne_bytes, u32_to_ne_bytes,
    u16_to_be, u16_from_be, byteAt, readU16, readU32, AF_INET, AF_INET6,
    List.cons_append, List.nil_append, List.getD_cons_zero, List.getD_cons_succ,
    List.drop_succ_cons, List.drop_zero]
  rw [if_neg (by norm_num), if_pos trivial, List.take_left' hl]
  have g16 : (oct ++ [sc % 256, sc / 256 % 256, sc / 65536 % 256,
      sc / 16777216 % 256]).getD 16 0 = sc % 256 := by
    rw [List.getD_append_right oct _ 0 16 (by omega), hl]
    simp
  have g17 : (oct ++ [sc % 256, sc / 256 % 256, sc / 65536 % 256,
      sc / 16777216 % 256]).getD 17 0 = sc / 256 % 256 := by
    rw [List.getD_append_right oct _ 0 17 (by omega), hl]
    simp
  have g18 : (oct ++ [sc % 256, sc / 256 % 256, sc / 65536 % 256,
      sc / 16777216 % 256]).getD 18 0 = sc / 65536 % 256 := by
    rw [List.getD_append_right oct _ 0 18 (by omega), hl]
    simp
  have g19 : (oct ++ [sc % 256, sc / 256 % 256, sc / 65536 % 256,
      sc / 16777216 % 256]).getD 19 0 = sc / 16777216 % 256 := by
    rw [List.getD_append_right oct _ 0 19 (by omega), hl]
    simp
  simp only [g16, g17, g18, g19]
  have f1 : fl % 256 + 256 * (fl / 256 % 256) + 65536 * (fl / 65536 % 256) +
      16777216 * (fl / 16777216 % 256) = fl := by omega
  have s1 : sc % 256 + 256 * (sc / 256 % 256) + 65536 * (sc / 65536 % 256) +
      16777216 * (sc / 16777216 % 256) = sc := by omega
  have e0 : p / 256 % 256 = p / 256 := by omega
  simp only [f1, s1, e0]
  have e1 : (p % 256 * 256 + p / 256) % 256 = p / 256 := by omega
  have e2 : (p % 256 * 256 + p / 256) / 256 % 256 = p % 256 := by omega
  simp only [e1, e2]
  have e3 : (p / 256 + 256 * (p % 256)) % 256 = p / 256 := by omega
  have e4 : (p / 256 + 256 * (p % 256)) / 256 % 256 = p % 256 := by omega
  simp only [e3, e4]
  have e5 : p / 256 * 256 + p % 256 = p := by omega
  rw [e5]

/-- Witness for C2 at the concrete address [::1]:443 with flow info 74565 and
scope id 7. -/
theorem v6_roundtrip_witness :
    to_socket_addr (socket_addr (.V6 ⟨[0, 0, 0, 0, 0, 0, 0, 0, 0, 0, 0, 0, 0,
      0, 0, 1], 443, 74565, 7⟩)).1 =
      .ok (.V6 ⟨[0, 0, 0, 0, 0, 0, 0, 0, 0, 0, 0, 0, 0, 0, 0, 1], 443,
        74565, 7⟩) :=
  v6_roundtrip ⟨[0, 0, 0, 0, 0, 0, 0, 0, 0, 0, 0, 0, 0, 0, 0, 1], 443,
    74565, 7⟩ (by decide)

end Rio

namespace Rio

/-- C3: decoding a native storage whose family discriminator is neither
`AF_INET` nor `AF_INET6` fails with the invalid-input error; and the decode
reads only the bytes of the layout the discriminator names (first 16 bytes
for v4, first 28 for v6), never fields of the other family. -/
theorem to_socket_addr_family_cases (s t : List Nat) :
    (readU16 s 0 ≠ AF_INET → readU16 s 0 ≠ AF_INET6 →
      to_socket_addr s = .error (.fromKind .invalidInput)) ∧
    (readU16 s 0 = AF_INET → (∀ i, i < 16 → byteAt s i = byteAt t i) →
      to_socket_addr s = to_socket_addr t) ∧
    (readU16 s 0 = AF_INET6 → 28 ≤ s.length → 28 ≤ t.length →
      (∀ i, i < 28 → byteAt s i = byteAt t i) →
      to_socket_addr s = to_socket_addr t) := by
  refine ⟨?_, ?_, ?_⟩
  · intro hn1 hn2
    rw [to_socket_addr, if_neg hn1, if_neg hn2]
  · intro hfam hagree
    have hr0 : readU16 s 0 = readU16 t 0 :=
      readU16_congr s t 0 (hagree 0 (by omega)) (hagree 1 (by omega))
    have hft : readU16 t 0 = AF_INET := by rw [← hr0]; exact hfam
    rw [to_socket_addr, to_socket_addr, if_pos hfam, if_pos hft,
      readU16_congr s t 2 (hagree 2 (by omega)) (hagree 3 (by omega)),
      readU32_congr s t 4 (hagree 4 (by omega)) (hagree 5 (by omega))
        (hagree 6 (by omega)) (hagree 7 (by omega))]
  · intro hfam hls hlt hagree
    have hr0 : readU16 s 0 = readU16 t 0 :=
      readU16_congr s t 0 (hagree 0 (by omega)) (hagree 1 (by omega))
    have hft : readU16 t 0 = AF_INET6 := by rw [← hr0]; exact hfam
    have hn : readU16 s 0 ≠ AF_INET := by
      rw [hfam]; simp [AF_INET, AF_INET6]
    have hnt : readU16 t 0 ≠ AF_INET := by
      rw [hft]; simp [AF_INET, AF_INET6]
    rw [to_socket_addr, to_socket_addr, if_neg hn, if_neg hnt,
      if_pos hfam, if_pos hft,
      readU16_congr s t 2 (hagree 2 (by omega)) (hagree 3 (by omega)),
      readU32_congr s t 4 (hagree 4 (by omega)) (hagree 5 (by omega))
        (hagree 6 (by omega)) (hagree 7 (by omega)),
      readU32_congr s t 24 (hagree 24 (by omega)) (hagree 25 (by omega))
        (hagree 26 (by omega)) (hagree 27 (by omega)),
      take_drop_congr s t (by omega) (by omega)
        (fun i hi => hagree i (by omega))]

/-- Witness for C3: a storage of 128 bytes of value 7 (family tag 1799) is
rejected as invalid input; the v4 and v6 locality parts applied at concrete
equal-prefix buffers. -/
theorem to_socket_addr_family_cases_witness :
    to_socket_addr (List.replicate 128 7) = .error (.fromKind .invalidInput) ∧
    to_socket_addr ([2, 0, 0, 80, 127, 0, 0, 1, 0, 0, 0, 0, 0, 0, 0, 0] ++
        [1, 2, 3]) =
      to_socket_addr ([2, 0, 0, 80, 127, 0, 0, 1, 0, 0, 0, 0, 0, 0, 0, 0] ++
        [9, 9, 9]) ∧
    to_socket_addr ([10, 0] ++ List.replicate 26 0 ++ [1, 2, 3]) =
      to_socket_addr ([10, 0] ++ List.replicate 26 0 ++ [9, 9, 9]) := by
  refine ⟨?_, ?_, ?_⟩
  · exact (to_socket_addr_family_cases (List.replicate 128 7) []).1
      (by decide) (by decide)
  · exact (to_socket_addr_family_cases _ _).2.1 (by decide) (by decide)
  · exact (to_socket_addr_family_cases
        ([10, 0] ++ List.replicate 26 0 ++ [1, 2, 3])
        ([10, 0] ++ List.replicate 26 0 ++ [9, 9, 9])).2.2
      (by decide) (by decide) (by decide) (by decide)

end Rio

namespace Rio

/-- C9: for every valid portable address, `socket_addr` writes the matching
family tag into the discriminator, stores the port in network byte order
(high byte at offset 2, low byte at offset 3), and returns as the length
exactly the byte size of that family's structure: 16 (`sizeof sockaddr_in`)
for v4 and 28 (`sizeof sockaddr_in6`) for v6 — for v4 this is strictly less
than the 28-byte full union size. -/
theorem socket_addr_header (addr : SocketAddr) (h : addr.Valid) :
    readU16 (socket_addr addr).1 0 = addr.family ∧
    byteAt (socket_addr addr).1 2 = addr.port / 256 ∧
    byteAt (socket_addr addr).1 3 = addr.port % 256 ∧
    (socket_addr addr).2 = (if addr.family = AF_INET then 16 else 28) := by
  cases addr with
  | V4 a =>
    have hp : a.port < 65536 := h.2.2
    obtain ⟨oct, p⟩ := a
    have hp' : p < 65536 := hp
    have e0 : p / 256 % 256 = p / 256 := by omega
    have d1 : (p % 256 * 256 + p / 256) / 256 = p % 256 := by omega
    refine ⟨?_, ?_, ?_, ?_⟩
    · simp [socket_addr, SocketAddr.family, u16_to_ne_bytes, readU16, byteAt,
        AF_INET]
    · simp [socket_addr, SocketAddr.port, u16_to_ne_bytes, u16_to_be, byteAt]
      omega
    · simp [socket_addr, SocketAddr.port, u16_to_ne_bytes, u16_to_be, byteAt]
      simp only [e0]
      rw [d1]
      omega
    · simp [socket_addr, SocketAddr.family, AF_INET]
  | V6 a =>
    have hp : a.port < 65536 := h.2.2.1
    obtain ⟨oct, p, fl, sc⟩ := a
    have hp' : p < 65536 := hp
    have e0 : p / 256 % 256 = p / 256 := by omega
    have d1 : (p % 256 * 256 + p / 256) / 256 = p % 256 := by omega
    refine ⟨?_, ?_, ?_, ?_⟩
    · simp [socket_addr, SocketAddr.family, u16_to_ne_bytes, readU16, byteAt,
        AF_INET6]
    · simp [socket_addr, SocketAddr.port, u16_to_ne_bytes, u16_to_be, byteAt]
      omega
    · simp [socket_addr, SocketAddr.port, u16_to_ne_bytes, u16_to_be, byteAt]
      simp only [e0]
      rw [d1]
      omega
    · simp [socket_addr, SocketAddr.family, AF_INET, AF_INET6]

/-- Witness for C9 at the concrete address 10.0.0.1:258. -/
theorem socket_addr_header_witness :
    readU16 (socket_addr (.V4 ⟨[10, 0, 0, 1], 258⟩)).1 0 =
      (SocketAddr.V4 ⟨[10, 0, 0, 1], 258⟩).family ∧
    byteAt (socket_addr (.V4 ⟨[10, 0, 0, 1], 258⟩)).1 2 = 258 / 256 ∧
    byteAt (socket_addr (.V4 ⟨[10, 0, 0, 1], 258⟩)).1 3 = 258 % 256 ∧
    (socket_addr (.V4 ⟨[10, 0, 0, 1], 258⟩)).2 =
      (if (SocketAddr.V4 ⟨[10, 0, 0, 1], 258⟩).family = AF_INET then 16
       else 28) :=
  socket_addr_header (.V4 ⟨[10, 0, 0, 1], 258⟩) (by decide)

/-- C10: the v4 native structure produced by `socket_addr` is exactly 16
bytes with the eight reserved `sin_zero` bytes (offsets 8..16) all zero, for
every IPv4 portable address, valid or not: the encoding is fully determined
by address and port with no leftover bytes. -/
theorem v4_sin_zero (a : SockAddrV4) :
    ((socket_addr (.V4 a)).1).length = 16 ∧
    (∀ i, 8 ≤ i → i < 16 → byteAt (socket_addr (.V4 a)).1 i = 0) := by
  constructor
  · simp [socket_addr, u16_to_ne_bytes, u32_to_ne_bytes]
  · intro i h1 h2
    interval_cases i <;>
      simp [socket_addr, u16_to_ne_bytes, u32_to_ne_bytes, byteAt]

/-- Witness for C10 at the (deliberately out-of-range) address value with
octet list [300] and port 70000: the padding is still all zero. -/
theorem v4_sin_zero_witness :
    ((socket_addr (.V4 ⟨[300], 70000⟩)).1).length = 16 ∧
    byteAt (socket_addr (.V4 ⟨[300], 70000⟩)).1 8 = 0 ∧
    byteAt (socket_addr (.V4 ⟨[300], 70000⟩)).1 15 = 0 :=
  ⟨(v4_sin_zero ⟨[300], 70000⟩).1,
   (v4_sin_zero ⟨[300], 70000⟩).2 8 (by decide) (by decide),
   (v4_sin_zero ⟨[300], 70000⟩).2 15 (by decide) (by decide)⟩

end Rio

namespace Rio

/-- C5: `create_new_socket` issues exactly one `socket` call whose type
argument is the requested kind with the non-blocking (bit 11, 0o4000) and
close-on-exec (bit 19, 0o2000000) flags ored in, and returns exactly that
call's descriptor on success or its OS error on failure — never both, with
no second call to retry. -/
theorem create_new_socket_spec (env : OsEnv) (domain socket_type : Nat) :
    (create_new_socket env domain socket_type).2 =
      [.socket domain (socket_type ||| SOCK_NONBLOCK ||| SOCK_CLOEXEC) 0] ∧
    Nat.testBit (socket_type ||| SOCK_NONBLOCK ||| SOCK_CLOEXEC) 11 = true ∧
    Nat.testBit (socket_type ||| SOCK_NONBLOCK ||| SOCK_CLOEXEC) 19 = true ∧
    (∀ fd, env.socketRes = .ok fd →
      (create_new_socket env domain socket_type).1 = .ok fd) ∧
    (∀ e, env.socketRes = .error e →
      (create_new_socket env domain socket_type).1 =
        .error (.fromRawOsError e)) := by
  refine ⟨?_, ?_, ?_, ?_, ?_⟩
  · cases h : env.socketRes <;> simp [create_new_socket, h]
  · simp [Nat.testBit_lor, SOCK_NONBLOCK, SOCK_CLOEXEC]
    left
    right
    decide
  · simp [Nat.testBit_lor, SOCK_NONBLOCK, SOCK_CLOEXEC]
    right
    decide
  · intro fd h
    simp [create_new_socket, h]
  · intro e h
    simp [create_new_socket, h]

/-- Witness for C5: a concrete environment whose socket call returns
descriptor 3, and one whose socket call fails with errno 24 (EMFILE). -/
theorem create_new_socket_spec_witness :
    (create_new_socket ⟨.ok 3, .ok (), .ok (), .ok (), .ok (), .ok 4, []⟩
        AF_INET SOCK_STREAM).1 = .ok 3 ∧
    (create_new_socket ⟨.error 24, .ok (), .ok (), .ok (), .ok (), .ok 4, []⟩
        AF_INET SOCK_STREAM).1 = .error (.fromRawOsError 24) ∧
    (create_new_socket ⟨.ok 3, .ok (), .ok (), .ok (), .ok (), .ok 4, []⟩
        AF_INET SOCK_STREAM).2 =
      [.socket AF_INET (SOCK_STREAM ||| SOCK_NONBLOCK ||| SOCK_CLOEXEC) 0] :=
  ⟨(create_new_socket_spec ⟨.ok 3, .ok (), .ok (), .ok (), .ok (), .ok 4, []⟩
      AF_INET SOCK_STREAM).2.2.2.1 3 rfl,
   (create_new_socket_spec ⟨.error 24, .ok (), .ok (), .ok (), .ok (), .ok 4,
      []⟩ AF_INET SOCK_STREAM).2.2.2.2 24 rfl,
   (create_new_socket_spec ⟨.ok 3, .ok (), .ok (), .ok (), .ok (), .ok 4, []⟩
      AF_INET SOCK_STREAM).1⟩

end Rio

namespace Rio

/-- C6: with every kernel call succeeding, `TcpListener::bind` issues, in
order: one `socket` call for the domain derived from the address family
(with non-blocking and close-on-exec ored into the type), `setsockopt`
enabling `SO_REUSEADDR`, `bind` with the encoded address and its exact
length, and `listen` with the fixed backlog 1024 — and returns the listener
owning the new descriptor. -/
theorem listener_bind_success (env : OsEnv) (addr : SocketAddr) (fd : Nat)
    (h1 : env.socketRes = .ok fd) (h2 : env.setsockoptRes = .ok ())
    (h3 : env.bindRes = .ok ()) (h4 : env.listenRes = .ok ()) :
    TcpListener.bind env addr =
      (.ok fd,
       [.socket addr.family (SOCK_STREAM ||| SOCK_NONBLOCK ||| SOCK_CLOEXEC) 0,
        .setsockopt fd SOL_SOCKET SO_REUSEADDR 1 4,
        .bind fd (socket_addr addr).1 (socket_addr addr).2,
        .listen fd 1024]) := by
  simp [TcpListener.bind, new_for_addr, create_new_socket, h1, h2, h3, h4]

/-- Witness for C6: binding 127.0.0.1:80 in an environment where every call
succeeds and the socket call returns descriptor 3. -/
theorem listener_bind_success_witness :
    TcpListener.bind ⟨.ok 3, .ok (), .ok (), .ok (), .ok (), .ok 4, []⟩
        (.V4 ⟨[127, 0, 0, 1], 80⟩) =
      (.ok 3,
       [.socket (SocketAddr.V4 ⟨[127, 0, 0, 1], 80⟩).family
          (SOCK_STREAM ||| SOCK_NONBLOCK ||| SOCK_CLOEXEC) 0,
        .setsockopt 3 SOL_SOCKET SO_REUSEADDR 1 4,
        .bind 3 (socket_addr (.V4 ⟨[127, 0, 0, 1], 80⟩)).1
          (socket_addr (.V4 ⟨[127, 0, 0, 1], 80⟩)).2,
        .listen 3 1024]) :=
  listener_bind_success ⟨.ok 3, .ok (), .ok (), .ok (), .ok (), .ok 4, []⟩
    (.V4 ⟨[127, 0, 0, 1], 80⟩) 3 rfl rfl rfl rfl

/-- C7: if the socket is created but setting `SO_REUSEADDR`, `bind`, or
`listen` fails with errno `e`, `TcpListener::bind` returns that step's OS
error (so no listener is returned) and the partially configured descriptor
is closed before the error propagates. -/
theorem listener_bind_failure (env : OsEnv) (addr : SocketAddr) (fd e : Nat)
    (h1 : env.socketRes = .ok fd)
    (h2 : env.setsockoptRes = .error e ∨
      (env.setsockoptRes = .ok () ∧ env.bindRes = .error e) ∨
      (env.setsockoptRes = .ok () ∧ env.bindRes = .ok () ∧
        env.listenRes = .error e)) :
    (TcpListener.bind env addr).1 = .error (.fromRawOsError e) ∧
    Syscall.close fd ∈ (TcpListener.bind env addr).2 := by
  rcases h2 with h2 | ⟨h2, h3⟩ | ⟨h2, h3, h4⟩
  · simp [TcpListener.bind, new_for_addr, create_new_socket, h1, h2]
  · simp [TcpListener.bind, new_for_addr, create_new_socket, h1, h2, h3]
  · simp [TcpListener.bind, new_for_addr, create_new_socket, h1, h2, h3, h4]

/-- Witness for C7: the three failure points exercised with concrete
environments (setsockopt fails with errno 13, bind with 98, listen with 98),
descriptor 3 created each time. -/
theorem listener_bind_failure_witness :
    ((TcpListener.bind ⟨.ok 3, .error 13, .ok (), .ok (), .ok (), .ok 4, []⟩
        (.V4 ⟨[127, 0, 0, 1], 80⟩)).1 = .error (.fromRawOsError 13) ∧
      Syscall.close 3 ∈ (TcpListener.bind ⟨.ok 3, .error 13, .ok (), .ok (),
        .ok (), .ok 4, []⟩ (.V4 ⟨[127, 0, 0, 1], 80⟩)).2) ∧
    ((TcpListener.bind ⟨.ok 3, .ok (), .error 98, .ok (), .ok (), .ok 4, []⟩
        (.V4 ⟨[127, 0, 0, 1], 80⟩)).1 = .error (.fromRawOsError 98) ∧
      Syscall.close 3 ∈ (TcpListener.bind ⟨.ok 3, .ok (), .error 98, .ok (),
        .ok (), .ok 4, []⟩ (.V4 ⟨[127, 0, 0, 1], 80⟩)).2) ∧
    ((TcpListener.bind ⟨.ok 3, .ok (), .ok (), .error 98, .ok (), .ok 4, []⟩
        (.V4 ⟨[127, 0, 0, 1], 80⟩)).1 = .error (.fromRawOsError 98) ∧
      Syscall.close 3 ∈ (TcpListener.bind ⟨.ok 3, .ok (), .ok (), .error 98,
        .ok (), .ok 4, []⟩ (.V4 ⟨[127, 0, 0, 1], 80⟩)).2) :=
  ⟨listener_bind_failure ⟨.ok 3, .error 13, .ok (), .ok (), .ok (), .ok 4, []⟩
      (.V4 ⟨[127, 0, 0, 1], 80⟩) 3 13 rfl (Or.inl rfl),
   listener_bind_failure ⟨.ok 3, .ok (), .error 98, .ok (), .ok (), .ok 4, []⟩
      (.V4 ⟨[127, 0, 0, 1], 80⟩) 3 98 rfl (Or.inr (Or.inl ⟨rfl, rfl⟩)),
   listener_bind_failure ⟨.ok 3, .ok (), .ok (), .error 98, .ok (), .ok 4, []⟩
      (.V4 ⟨[127, 0, 0, 1], 80⟩) 3 98 rfl (Or.inr (Or.inr ⟨rfl, rfl, rfl⟩))⟩

/-- C4: `TcpStream::connect` treats exactly the `EINPROGRESS` status of the
non-blocking connect call as success and returns the stream (no close is
issued); any other connect error is returned and the freshly created
descriptor is closed; a synchronously successful connect also yields the
stream. -/
theorem stream_connect_spec (env : OsEnv) (addr : SocketAddr) (fd : Nat)
    (h1 : env.socketRes = .ok fd) :
    (env.connectRes = .error EINPROGRESS →
      (TcpStream.connect env addr).1 = .ok fd ∧
      Syscall.close fd ∉ (TcpStream.connect env addr).2) ∧
    (∀ e, env.connectRes = .error e → e ≠ EINPROGRESS →
      (TcpStream.connect env addr).1 = .error (.fromRawOsError e) ∧
      Syscall.close fd ∈ (TcpStream.connect env addr).2) ∧
    (∀ u, env.connectRes = .ok u →
      (TcpStream.connect env addr).1 = .ok fd) := by
  refine ⟨?_, ?_, ?_⟩
  · intro h
    simp [TcpStream.connect, new_for_addr, create_new_socket, h1, h,
      IoError.rawOsError]
  · intro e h he
    simp [TcpStream.connect, new_for_addr, create_new_socket, h1, h,
      IoError.rawOsError, he]
  · intro u h
    simp [TcpStream.connect, new_for_addr, create_new_socket, h1, h]

/-- Witness for C4: connecting with descriptor 3 where connect reports
`EINPROGRESS` (115) succeeds without a close; where connect reports
`ECONNREFUSED` (111) the error propagates and descriptor 3 is closed. -/
theorem stream_connect_spec_witness :
    ((TcpStream.connect ⟨.ok 3, .ok (), .ok (), .ok (), .error 115, .ok 4, []⟩
        (.V4 ⟨[127, 0, 0, 1], 80⟩)).1 = .ok 3 ∧
      Syscall.close 3 ∉ (TcpStream.connect ⟨.ok 3, .ok (), .ok (), .ok (),
        .error 115, .ok 4, []⟩ (.V4 ⟨[127, 0, 0, 1], 80⟩)).2) ∧
    ((TcpStream.connect ⟨.ok 3, .ok (), .ok (), .ok (), .error 111, .ok 4, []⟩
        (.V4 ⟨[127, 0, 0, 1], 80⟩)).1 = .error (.fromRawOsError 111) ∧
      Syscall.close 3 ∈ (TcpStream.connect ⟨.ok 3, .ok (), .ok (), .ok (),
        .error 111, .ok 4, []⟩ (.V4 ⟨[127, 0, 0, 1], 80⟩)).2) :=
  ⟨(stream_connect_spec ⟨.ok 3, .ok (), .ok (), .ok (), .error 115, .ok 4, []⟩
      (.V4 ⟨[127, 0, 0, 1], 80⟩) 3 rfl).1 rfl,
   (stream_connect_spec ⟨.ok 3, .ok (), .ok (), .ok (), .error 111, .ok 4, []⟩
      (.V4 ⟨[127, 0, 0, 1], 80⟩) 3 rfl).2.1 111 rfl (by decide)⟩

/-- C8: `TcpListener::accept` always issues the `accept4` call with the
close-on-exec and non-blocking flags ored into the flags argument of the
call itself; when no connection is pending (`EAGAIN`), the returned error
carries the distinct `WouldBlock` kind, which differs from the
invalid-input and uncategorized kinds; the call returns rather than
blocking. -/
theorem listener_accept_spec (env : OsEnv) (lfd : Nat) :
    (TcpListener.accept env lfd).2.head? =
      some (.accept4 lfd (SOCK_CLOEXEC ||| SOCK_NONBLOCK)) ∧
    Nat.testBit (SOCK_CLOEXEC ||| SOCK_NONBLOCK) 11 = true ∧
    Nat.testBit (SOCK_CLOEXEC ||| SOCK_NONBLOCK) 19 = true ∧
    (env.accept4Res = .error EAGAIN →
      (TcpListener.accept env lfd).1 = .error (.fromRawOsError EAGAIN) ∧
      (IoError.fromRawOsError EAGAIN).kind = .wouldBlock) ∧
    ErrorKind.wouldBlock ≠ ErrorKind.invalidInput ∧
    ErrorKind.wouldBlock ≠ ErrorKind.other := by
  refine ⟨?_, by decide, by decide, ?_, by decide, by decide⟩
  · cases h : env.accept4Res with
    | error e => simp [TcpListener.accept, h]
    | ok newfd =>
      cases hd : to_socket_addr env.peerBytes <;>
        simp [TcpListener.accept, h, hd]
  · intro h
    refine ⟨by simp [TcpListener.accept, h], by decide⟩

/-- Witness for C8: accepting on listener descriptor 5 with no pending
connection (accept4 fails with `EAGAIN`). -/
theorem listener_accept_spec_witness :
    (TcpListener.accept ⟨.ok 3, .ok (), .ok (), .ok (), .ok (), .error 11, []⟩
        5).2.head? = some (.accept4 5 (SOCK_CLOEXEC ||| SOCK_NONBLOCK)) ∧
    (TcpListener.accept ⟨.ok 3, .ok (), .ok (), .ok (), .ok (), .error 11, []⟩
        5).1 = .error (.fromRawOsError EAGAIN) ∧
    (IoError.fromRawOsError EAGAIN).kind = .wouldBlock :=
  ⟨(listener_accept_spec ⟨.ok 3, .ok (), .ok (), .ok (), .ok (), .error 11,
      []⟩ 5).1,
   (listener_accept_spec ⟨.ok 3, .ok (), .ok (), .ok (), .ok (), .error 11,
      []⟩ 5).2.2.2.1 rfl⟩

end Rio
